import Mathlib

/-!
Verification development for the gouroboros mini-protocol sources:
`protocol/keepalive/client.go` (keep-alive client and local-state-query
server) and `ledger/block.go` (tagged-variant CBOR decoders).

The Go code is shallowly embedded: pure decode dispatch becomes Lean
functions over abstract decode-attempt data, and the stateful keep-alive
client becomes explicit state passing over a record of its observable
state (messages sent, timer armed, one-shot start gate).
-/

namespace KeepAlive

/-- Configuration of the keep-alive client, mirroring `keepalive.Config`:
a cookie seed, a send period, a server-state timeout, and whether the
`KeepAliveResponseFunc` callback is set (non-nil). Callbacks are modelled
by their presence; an invocation is recorded in the handler outcome. -/
structure Config where
  cookie : Nat
  period : Nat
  timeout : Nat
  hasKeepAliveResponseFunc : Bool
  deriving Repr, DecidableEq

/-- Modelled from the spec: `NewConfig()` producing the default keep-alive
configuration (the function body is not among the sources; the spec lists
the option surface `Period, Timeout, Cookie-seed, ResponseCallback`).
Concrete default values are placeholders; no claim depends on them. -/
def NewConfig : Config :=
  { cookie := 0, period := 60, timeout := 10, hasKeepAliveResponseFunc := false }

/-- Which party may send in a state (spec §3 AgencyEntry). -/
inductive Agency where
  | clientAgency
  | serverAgency
  | noAgency
  deriving Repr, DecidableEq

/-- Protocol states of the keep-alive mini-protocol. Modelled from the
spec §4.4: `Client` → `Server` → `Client`, terminal `Done`. The source
refers to them as `StateClient`, `StateServer`. -/
inductive ProtState where
  | stateClient
  | stateServer
  | stateDone
  deriving Repr, DecidableEq

/-- One entry of a state map: agency, legal (message type → next state)
transitions, and an optional wait timeout, mirroring the state-map entry
that the source updates via `entry.Timeout = c.config.Timeout`. -/
structure StateMapEntry where
  agency : Agency
  transitions : List (Nat × ProtState)
  timeout : Nat
  deriving Repr, DecidableEq

/-- A state map: Go `map[State]StateMapEntry`, embedded as a partial
function from states to entries. -/
def StateMapT : Type := ProtState → Option StateMapEntry

/-- Modelled from the spec: `StateMap.Copy()` returns an independent map
holding the same entries (spec §4.2: "taking an independent copy of the
template map"). In the pure embedding the copy has exactly the entries of the template; the template value itself is never rebound. -/
def stateMapCopy (m : StateMapT) : StateMapT := fun s => m s

/-- Modelled from the spec §4.4: the shared keep-alive `StateMap` template
(Client agency in `Client`, Server agency in `Server`, terminal `Done`;
keep-alive message type discriminants 0 = KeepAlive, 1 = KeepAliveResponse
per spec §6, 2 = Done). The timeout values of the template are placeholders;
no claim depends on them. -/
def keepAliveStateMap : StateMapT := fun s =>
  match s with
  | ProtState.stateClient =>
      some { agency := Agency.clientAgency,
             transitions := [(0, ProtState.stateServer), (2, ProtState.stateDone)],
             timeout := 0 }
  | ProtState.stateServer =>
      some { agency := Agency.serverAgency,
             transitions := [(1, ProtState.stateClient)],
             timeout := 0 }
  | ProtState.stateDone =>
      some { agency := Agency.noAgency, transitions := [], timeout := 0 }

/-- The state-map customization performed by `NewClient` (client.go lines
41-45): copy the template, and when a `StateServer` entry exists,
overwrite its timeout with the configured one, storing it back in the
copy. -/
def newClientStateMap (tmpl : StateMapT) (timeout : Nat) : StateMapT :=
  let m := stateMapCopy tmpl
  match m ProtState.stateServer with
  | some entry =>
      fun s => if s = ProtState.stateServer
               then some { entry with timeout := timeout }
               else m s
  | none => m

/-- Observable run state of a keep-alive client: whether the `sync.Once`
start gate has fired, whether the underlying protocol was started, the
cookies of the KeepAlive messages sent so far (oldest first), and whether
the resend timer is armed. -/
structure ClientRun where
  started : Bool
  protocolStarted : Bool
  sentCookies : List Nat
  timerArmed : Bool
  deriving Repr, DecidableEq

def initialClientRun : ClientRun :=
  { started := false, protocolStarted := false, sentCookies := [], timerArmed := false }

/-- The keep-alive client as constructed by `NewClient`: its (resolved)
config, its customized state map, and its run state. -/
structure Client where
  config : Config
  stateMap : StateMapT
  run : ClientRun

/-- The nil-config substitution at the top of `NewClient` (client.go lines
33-36): a nil `cfg` is replaced by `NewConfig()`. -/
def resolveConfig (cfg? : Option Config) : Config :=
  match cfg? with
  | none => NewConfig
  | some cfg => cfg

/-- `NewClient` (client.go lines 32-69): resolve the config, copy the
shared state-map template with the timeout override, and start with a
fresh run state. -/
def NewClient (cfg? : Option Config) : Client :=
  let cfg := resolveConfig cfg?
  { config := cfg,
    stateMap := newClientStateMap keepAliveStateMap cfg.timeout,
    run := initialClientRun }

/-- `startTimer` (client.go lines 87-94): stop any existing timer and arm
a new one for the configured period. -/
def startTimer (r : ClientRun) : ClientRun :=
  { r with timerArmed := true }

/-- `sendKeepAlive` (client.go lines 78-85): send
`NewMsgKeepAlive(c.config.Cookie)` — always the configured cookie — then
schedule the timer. -/
def sendKeepAlive (cfg : Config) (r : ClientRun) : ClientRun :=
  startTimer { r with sentCookies := r.sentCookies ++ [cfg.cookie] }

/-- `Start` (client.go lines 71-76): guarded by `onceStart`, start the
underlying protocol and perform the initial keep-alive send; later calls
find the gate consumed and do nothing. -/
def clientStart (c : Client) : Client :=
  if c.run.started then c
  else { c with
         run := sendKeepAlive c.config
                  { c.run with started := true, protocolStarted := true } }

/-- A firing of the timer armed by `startTimer`: `time.AfterFunc` invokes
`sendKeepAlive`, which re-sends and re-arms. -/
def timerFire (c : Client) : Client :=
  { c with run := sendKeepAlive c.config c.run }

/-- `n` successive timer firings. -/
def timerFireN : Nat → Client → Client
  | 0, c => c
  | Nat.succ n, c => timerFireN n (timerFire c)

/-- `n` successive calls to `Start`. -/
def startN : Nat → Client → Client
  | 0, c => c
  | Nat.succ n, c => startN n (clientStart c)

/-- Outcome of the keep-alive response handler: either the user callback
was invoked (once) with the given cookie, or nothing happened and nil was
returned. -/
inductive ResponseOutcome where
  | callbackInvoked (cookie : Nat)
  | noAction
  deriving Repr, DecidableEq

/-- `handleKeepAliveResponse` (client.go lines 111-118): when the config
and its `KeepAliveResponseFunc` are non-nil, invoke the callback with the
cookie of the message; otherwise return nil. The most recently sent cookie is
not consulted. -/
def handleKeepAliveResponse (config? : Option Config) (cookie : Nat) : ResponseOutcome :=
  match config? with
  | some cfg =>
      if cfg.hasKeepAliveResponseFunc then ResponseOutcome.callbackInvoked cookie
      else ResponseOutcome.noAction
  | none => ResponseOutcome.noAction

end KeepAlive

namespace LocalStateQuery

/-- A chain point carried by an Acquire/ReAcquire message, abstracted to
its payload. -/
abbrev Point : Type := Nat

/-- The body of a Query message, abstracted to its payload. -/
abbrev QueryBody : Type := Nat

/-- Configuration of the local-state-query server, mirroring
`localstatequery.Config`: for each of the five user callbacks, whether it
is set (non-nil). Callbacks are modelled by their presence; an invocation
is recorded in the handler outcome. -/
structure Config where
  hasAcquireFunc : Bool
  hasQueryFunc : Bool
  hasReleaseFunc : Bool
  hasReAcquireFunc : Bool
  hasDoneFunc : Bool
  deriving Repr, DecidableEq

/-- The inbound messages the server handler can receive. `msgOther t`
stands for any message whose `Type()` is `t` but which is none of the
seven handled shapes. -/
inductive Msg where
  | msgAcquire (point : Point)
  | msgAcquireNoPoint
  | msgQuery (q : QueryBody)
  | msgRelease
  | msgReAcquire (point : Point)
  | msgReAcquireNoPoint
  | msgDone
  | msgOther (t : Nat)

/-- Modelled from the spec: the local-state-query message type
discriminants ("small non-negative integers scoped per message catalog of each
mini-protocol", spec §6; the constant declarations are not among the
sources). The claims depend only on the constants being distinct. -/
def MessageTypeAcquire : Nat := 0

def MessageTypeQuery : Nat := 3

def MessageTypeRelease : Nat := 5

def MessageTypeReacquire : Nat := 6

def MessageTypeDone : Nat := 7

def MessageTypeAcquireNoPoint : Nat := 8

def MessageTypeReacquireNoPoint : Nat := 9

/-- `msg.Type()` for each message shape. -/
def msgType : Msg → Nat
  | Msg.msgAcquire _ => MessageTypeAcquire
  | Msg.msgAcquireNoPoint => MessageTypeAcquireNoPoint
  | Msg.msgQuery _ => MessageTypeQuery
  | Msg.msgRelease => MessageTypeRelease
  | Msg.msgReAcquire _ => MessageTypeReacquire
  | Msg.msgReAcquireNoPoint => MessageTypeReacquireNoPoint
  | Msg.msgDone => MessageTypeDone
  | Msg.msgOther t => t

/-- A recorded invocation of one of the five user callbacks. The
present-vs-absent chain point argument of `AcquireFunc`/`ReAcquireFunc`
is an `Option Point` (`none` is the nil the source passes for the
NoPoint variants). -/
inductive CallbackCall where
  | acquireCall (point : Option Point)
  | queryCall (q : QueryBody)
  | releaseCall
  | reAcquireCall (point : Option Point)
  | doneCall

/-- Outcome of the server message handler: a nil-error return that
invoked at most one callback (`ok`), a missing-callback error naming the
message kind, the unexpected-message-type error of the default switch
branch, or the panic of a failed Go type assertion in `handleQuery`. -/
inductive HandlerResult where
  | ok (invoked : Option CallbackCall)
  | missingHandler (msgName : String)
  | unexpectedType (t : Nat)
  | typeAssertionFailure

/-- The local-state-query server, mirroring `localstatequery.Server`: its
config and the three version-gated feature flags set by `NewServer`. -/
structure Server where
  config : Config
  enableGetChainBlockNo : Bool
  enableGetChainPoint : Bool
  enableGetRewardInfoPoolsBlock : Bool

/-- `NewServer` (client.go lines 137-163): store the config and enable
the version-dependent feature flags — the two version ≥ 10 flags and the
version ≥ 11 flag. -/
def NewServer (version : Nat) (cfg : Config) : Server :=
  { config := cfg,
    enableGetChainBlockNo := decide (10 ≤ version),
    enableGetChainPoint := decide (10 ≤ version),
    enableGetRewardInfoPoolsBlock := decide (11 ≤ version) }

/-- `handleAcquire` (client.go lines 188-201): error when `AcquireFunc`
is nil, else dispatch on the concrete message shape, passing the point or
nil; any other shape falls through to a nil return. -/
def handleAcquire (s : Server) (msg : Msg) : HandlerResult :=
  if s.config.hasAcquireFunc = false then
    HandlerResult.missingHandler "Acquire"
  else
    match msg with
    | Msg.msgAcquire p => HandlerResult.ok (some (CallbackCall.acquireCall (some p)))
    | Msg.msgAcquireNoPoint => HandlerResult.ok (some (CallbackCall.acquireCall none))
    | _ => HandlerResult.ok none

/-- `handleQuery` (client.go lines 203-210): error when `QueryFunc` is
nil, else assert the `*MsgQuery` shape and invoke the callback with the
query body. -/
def handleQuery (s : Server) (msg : Msg) : HandlerResult :=
  if s.config.hasQueryFunc = false then
    HandlerResult.missingHandler "Query"
  else
    match msg with
    | Msg.msgQuery q => HandlerResult.ok (some (CallbackCall.queryCall q))
    | _ => HandlerResult.typeAssertionFailure

/-- `handleRelease` (client.go lines 212-218). -/
def handleRelease (s : Server) : HandlerResult :=
  if s.config.hasReleaseFunc = false then
    HandlerResult.missingHandler "Release"
  else HandlerResult.ok (some CallbackCall.releaseCall)

/-- `handleReAcquire` (client.go lines 220-233): like `handleAcquire`
for the ReAcquire variants. -/
def handleReAcquire (s : Server) (msg : Msg) : HandlerResult :=
  if s.config.hasReAcquireFunc = false then
    HandlerResult.missingHandler "ReAcquire"
  else
    match msg with
    | Msg.msgReAcquire p => HandlerResult.ok (some (CallbackCall.reAcquireCall (some p)))
    | Msg.msgReAcquireNoPoint => HandlerResult.ok (some (CallbackCall.reAcquireCall none))
    | _ => HandlerResult.ok none

/-- `handleDone` (client.go lines 235-241). -/
def handleDone (s : Server) : HandlerResult :=
  if s.config.hasDoneFunc = false then
    HandlerResult.missingHandler "Done"
  else HandlerResult.ok (some CallbackCall.doneCall)

/-- `messageHandler` (client.go lines 165-186): switch on `msg.Type()`
over the seven handled message types, defaulting to the
unexpected-message-type error. The `isResponse` argument is unused by the
body. -/
def messageHandler (s : Server) (msg : Msg) (_isResponse : Bool) : HandlerResult :=
  let t := msgType msg
  if t = MessageTypeAcquire then handleAcquire s msg
  else if t = MessageTypeQuery then handleQuery s msg
  else if t = MessageTypeRelease then handleRelease s
  else if t = MessageTypeReacquire then handleReAcquire s msg
  else if t = MessageTypeAcquireNoPoint then handleAcquire s msg
  else if t = MessageTypeReacquireNoPoint then handleReAcquire s msg
  else if t = MessageTypeDone then handleDone s
  else HandlerResult.unexpectedType t

end LocalStateQuery

namespace Ledger

/-- Certificate type discriminants (block.go lines 111-119). -/
def CertificateTypeStakeRegistration : Int := 0

def CertificateTypeStakeDeregistration : Int := 1

def CertificateTypeStakeDelegation : Int := 2

def CertificateTypePoolRegistration : Int := 3

def CertificateTypePoolRetirement : Int := 4

def CertificateTypeGenesisKeyDelegation : Int := 5

def CertificateTypeMoveInstantaneousRewards : Int := 6

/-- The CBOR input to `CertificateWrapper.UnmarshalCBOR`, abstracted to
the two decode attempts the body performs: the result of
`cbor.DecodeIdFromList(data)` and, per candidate certificate type, whether
the full `cbor.Decode(data, tmpCert)` into the struct of that type succeeds. -/
structure CertData where
  listId : Except Unit Int
  payloadOk : Int → Bool

/-- Outcome of `CertificateWrapper.UnmarshalCBOR`: the wrapper filled
with the decoded type, or one of the three error paths. -/
inductive CertResult where
  | ok (certType : Nat)
  | idError
  | unknownCertType (t : Int)
  | payloadError
  deriving Repr, DecidableEq

/-- `CertificateWrapper.UnmarshalCBOR` (block.go lines 126-158): read the
leading discriminant, select the concrete certificate struct in the
switch over the seven known types — erroring with the unknown type in the
default branch — then fully decode, and on success store type and
certificate. -/
def certificateWrapperUnmarshalCBOR (d : CertData) : CertResult :=
  match d.listId with
  | Except.error _ => CertResult.idError
  | Except.ok certType =>
      if certType = CertificateTypeStakeRegistration ∨
         certType = CertificateTypeStakeDeregistration ∨
         certType = CertificateTypeStakeDelegation ∨
         certType = CertificateTypePoolRegistration ∨
         certType = CertificateTypePoolRetirement ∨
         certType = CertificateTypeGenesisKeyDelegation ∨
         certType = CertificateTypeMoveInstantaneousRewards then
        if d.payloadOk certType then CertResult.ok certType.toNat
        else CertResult.payloadError
      else CertResult.unknownCertType certType

/-- Modelled from the spec: the block era type discriminants used by
the switch of `NewBlockFromCbor` (spec §6: "discriminants are small
non-negative integers ... per ledger entity kind (... block era types
...)"; the constant declarations are not among the sources). The claims
depend only on the constants forming the closed known set. -/
def BlockTypeByronEbb : Nat := 0

def BlockTypeByronMain : Nat := 1

def BlockTypeShelley : Nat := 2

def BlockTypeAllegra : Nat := 3

def BlockTypeMary : Nat := 4

def BlockTypeAlonzo : Nat := 5

def BlockTypeBabbage : Nat := 6

def BlockTypeConway : Nat := 7

/-- The CBOR input to `NewBlockFromCbor`, abstracted to whether the
per-era block constructor (`NewShelleyBlockFromCbor`, ...) selected for a
given block type succeeds on it. -/
structure BlockData where
  eraOk : Nat → Bool

/-- Outcome of `NewBlockFromCbor`: a decoded block of the selected era,
the decode error of the era constructor, or the unknown-block-type
error naming the discriminant. -/
inductive BlockResult where
  | ok (blockType : Nat)
  | decodeError (blockType : Nat)
  | unknownBlockType (t : Nat)
  deriving Repr, DecidableEq

/-- One delegated per-era constructor call inside `NewBlockFromCbor`. -/
def eraConstructor (blockType : Nat) (d : BlockData) : BlockResult :=
  if d.eraOk blockType then BlockResult.ok blockType
  else BlockResult.decodeError blockType

/-- `NewBlockFromCbor` (block.go lines 39-59): switch on the block type
over the eight known eras, delegating to the constructor of that era; any
other type returns the unknown-node-to-client-block-type error. -/
def NewBlockFromCbor (blockType : Nat) (d : BlockData) : BlockResult :=
  if blockType = BlockTypeByronEbb then eraConstructor blockType d
  else if blockType = BlockTypeByronMain then eraConstructor blockType d
  else if blockType = BlockTypeShelley then eraConstructor blockType d
  else if blockType = BlockTypeAllegra then eraConstructor blockType d
  else if blockType = BlockTypeMary then eraConstructor blockType d
  else if blockType = BlockTypeAlonzo then eraConstructor blockType d
  else if blockType = BlockTypeBabbage then eraConstructor blockType d
  else if blockType = BlockTypeConway then eraConstructor blockType d
  else BlockResult.unknownBlockType blockType

/-- Pool relay type discriminants (block.go lines 282-286). -/
def PoolRelayTypeSingleHostAddress : Int := 0

def PoolRelayTypeSingleHostName : Int := 1

def PoolRelayTypeMultiHostName : Int := 2

/-- The CBOR input to `PoolRelay.UnmarshalCBOR`, abstracted to the
decode attempts the body performs: the leading discriminant and, per
relay type, whether the full decode into the struct of that shape succeeds. -/
structure RelayData where
  listId : Except Unit Int
  payloadOk : Int → Bool

/-- Outcome of `PoolRelay.UnmarshalCBOR`. `p.Type` is assigned before
the switch, so the success and payload-error outcomes carry the type;
the invalid-relay-type error of the default branch names the unknown
discriminant. -/
inductive RelayResult where
  | ok (relayType : Int)
  | idError
  | invalidRelayType (t : Int)
  | payloadError (relayType : Int)
  deriving Repr, DecidableEq

/-- `PoolRelay.UnmarshalCBOR` (block.go lines 296-343): read the leading
discriminant, store it as the relay type, then switch over the three
known relay shapes — decoding the matching struct — and error with the
invalid relay type in the default branch. -/
def poolRelayUnmarshalCBOR (d : RelayData) : RelayResult :=
  match d.listId with
  | Except.error _ => RelayResult.idError
  | Except.ok tmpId =>
      if tmpId = PoolRelayTypeSingleHostAddress ∨
         tmpId = PoolRelayTypeSingleHostName ∨
         tmpId = PoolRelayTypeMultiHostName then
        if d.payloadOk tmpId then RelayResult.ok tmpId
        else RelayResult.payloadError tmpId
      else RelayResult.invalidRelayType tmpId

/-- The rewards map of a MIR certificate reward, abstracted to an
association list of (stake credential, coin) pairs. -/
abbrev RewardsMap : Type := List (Nat × Nat)

/-- `MoveInstantaneousRewardsCertificateReward` (block.go lines 472-476). -/
structure MirReward where
  source : Nat
  rewards : RewardsMap
  otherPot : Nat

/-- The CBOR input to the MIR reward decoder. Both shapes the body
tries, `[source, rewards-map]` and `[source, coin]`, decode the same
leading `Source` field from the same bytes, so the input is abstracted
to three field-decode results: the shared leading source, the second
element read as a rewards map, and the second element read as a coin.
An attempt succeeds exactly when both of its fields decode. -/
structure MirData where
  sourceField : Except Unit Nat
  rewardsField : Except Unit RewardsMap
  coinField : Except Unit Nat

/-- `MoveInstantaneousRewardsCertificateReward.UnmarshalCBOR` (block.go
lines 478-502): try the map shape first and on success set `Rewards` and
`Source` from it; on any error fall back to the coin shape and on
success of the fallback set `OtherPot` from the decoded coin and
`Source` from `tmpMapData.Source` — the CBOR library decodes
array-shaped struct fields in declaration order, in place, so the failed
first attempt has already written the shared leading source field to
`tmpMapData` whenever it is decodable (and left the zero value 0
otherwise); if both attempts fail, error. `r` is the receiver. -/
def mirRewardUnmarshalCBOR (r : MirReward) (d : MirData) : Except Unit MirReward :=
  let tmpMapDataSource : Nat :=
    match d.sourceField with
    | Except.ok s => s
    | Except.error _ => 0
  match d.sourceField, d.rewardsField with
  | Except.ok src, Except.ok rew => Except.ok { r with rewards := rew, source := src }
  | _, _ =>
      match d.sourceField, d.coinField with
      | Except.ok _src, Except.ok coin =>
          Except.ok { r with otherPot := coin, source := tmpMapDataSource }
      | _, _ => Except.error ()

/-- The zero-valued receiver a fresh decode starts from. -/
def zeroMirReward : MirReward := { source := 0, rewards := [], otherPot := 0 }

end Ledger

namespace KeepAlive

/-- Helper: a timer firing appends the configured cookie, arms the timer,
and leaves config, gate and protocol-start flag alone. -/
theorem timerFireN_spec (n : Nat) (c : Client) :
    (timerFireN n c).config = c.config ∧
    (timerFireN n c).run.sentCookies
      = c.run.sentCookies ++ List.replicate n c.config.cookie ∧
    (timerFireN n c).run.timerArmed = (c.run.timerArmed || decide (0 < n)) ∧
    (timerFireN n c).run.protocolStarted = c.run.protocolStarted ∧
    (timerFireN n c).run.started = c.run.started := by
  induction n generalizing c with
  | zero => simp [timerFireN]
  | succ m ih =>
      rcases ih (timerFire c) with ⟨h1, h2, h3, h4, h5⟩
      have hc : (timerFire c).config = c.config := rfl
      have hs : (timerFire c).run.sentCookies
          = c.run.sentCookies ++ [c.config.cookie] := rfl
      have ha : (timerFire c).run.timerArmed = true := rfl
      have hp : (timerFire c).run.protocolStarted = c.run.protocolStarted := rfl
      have hst : (timerFire c).run.started = c.run.started := rfl
      rw [hc] at h2
      simp only [timerFireN]
      refine ⟨h1.trans hc, ?_, ?_, h4.trans hp, h5.trans hst⟩
      · rw [h2, hs, List.append_assoc]
        simp [List.replicate_succ]
      · rw [h3, ha]
        simp

/-- Helper: starting an already-started client any number of further
times changes nothing. -/
theorem startN_of_started (n : Nat) (c : Client) (h : c.run.started = true) :
    startN n c = c := by
  induction n generalizing c with
  | zero => rfl
  | succ m ih =>
      simp only [startN, clientStart, h, if_true]
      exact ih c h

end KeepAlive

/-- Claim C4 (confirmed): for every keep-alive client, calling `Start()`
any number `n ≥ 1` of times equals calling it once, the underlying
protocol is started, and the initial KeepAlive send happened exactly once
(one sent message, the configured cookie). -/
theorem keepalive_start_idempotent (cfg? : Option KeepAlive.Config) (n : Nat)
    (h : 1 ≤ n) :
    KeepAlive.startN n (KeepAlive.NewClient cfg?)
      = KeepAlive.startN 1 (KeepAlive.NewClient cfg?) ∧
    (KeepAlive.startN n (KeepAlive.NewClient cfg?)).run.sentCookies
      = [(KeepAlive.resolveConfig cfg?).cookie] ∧
    (KeepAlive.startN n (KeepAlive.NewClient cfg?)).run.protocolStarted = true := by
  obtain ⟨m, rfl⟩ : ∃ m, n = m + 1 := ⟨n - 1, by omega⟩
  have hstart :
      (KeepAlive.clientStart (KeepAlive.NewClient cfg?)).run.started = true := by
    simp [KeepAlive.clientStart, KeepAlive.NewClient, KeepAlive.initialClientRun,
      KeepAlive.sendKeepAlive, KeepAlive.startTimer]
  have hm : KeepAlive.startN (m + 1) (KeepAlive.NewClient cfg?)
      = KeepAlive.clientStart (KeepAlive.NewClient cfg?) := by
    simp only [KeepAlive.startN]
    exact KeepAlive.startN_of_started m _ hstart
  have h1 : KeepAlive.startN 1 (KeepAlive.NewClient cfg?)
      = KeepAlive.clientStart (KeepAlive.NewClient cfg?) := rfl
  refine ⟨hm.trans h1.symm, ?_, ?_⟩ <;> rw [hm] <;> rfl

/-- Witness for C4 at `n = 3` with a nil config. -/
theorem keepalive_start_idempotent_witness :
    KeepAlive.startN 3 (KeepAlive.NewClient none)
      = KeepAlive.startN 1 (KeepAlive.NewClient none) ∧
    (KeepAlive.startN 3 (KeepAlive.NewClient none)).run.sentCookies
      = [(KeepAlive.resolveConfig none).cookie] ∧
    (KeepAlive.startN 3 (KeepAlive.NewClient none)).run.protocolStarted = true :=
  keepalive_start_idempotent none 3 (by decide)

/-- Claim C3 (corrected): starting a keep-alive client immediately sends a
KeepAlive carrying the configured cookie and arms the timer, and after `n`
further timer firings the client has sent `n + 1` KeepAlive messages, all
carrying that same configured cookie — not a new, distinct cookie per
firing — with the timer re-armed. -/
theorem keepalive_start_and_timer_same_cookie (cfg? : Option KeepAlive.Config) (n : Nat) :
    (KeepAlive.timerFireN n (KeepAlive.clientStart (KeepAlive.NewClient cfg?))).run.sentCookies
      = List.replicate (n + 1) (KeepAlive.resolveConfig cfg?).cookie ∧
    (KeepAlive.timerFireN n (KeepAlive.clientStart (KeepAlive.NewClient cfg?))).run.timerArmed
      = true := by
  have hstart : KeepAlive.clientStart (KeepAlive.NewClient cfg?)
      = { config := KeepAlive.resolveConfig cfg?,
          stateMap := KeepAlive.newClientStateMap KeepAlive.keepAliveStateMap
            (KeepAlive.resolveConfig cfg?).timeout,
          run := { started := true, protocolStarted := true,
                   sentCookies := [(KeepAlive.resolveConfig cfg?).cookie],
                   timerArmed := true } } := by
    simp [KeepAlive.clientStart, KeepAlive.NewClient, KeepAlive.initialClientRun,
      KeepAlive.sendKeepAlive, KeepAlive.startTimer]
  have h := KeepAlive.timerFireN_spec n (KeepAlive.clientStart (KeepAlive.NewClient cfg?))
  rcases h with ⟨_h1, h2, h3, _h4, _h5⟩
  constructor
  · rw [h2, hstart]
    simp [List.replicate_succ]
  · rw [h3, hstart]
    simp

/-- Counterexample for C3 as stated: with cookie seed 7, the first timer
firing re-sends cookie 7 again — the second sent cookie equals the first
instead of being distinct. -/
theorem keepalive_repeat_cookie_counterexample :
    (KeepAlive.timerFire
      (KeepAlive.clientStart
        (KeepAlive.NewClient (some { cookie := 7, period := 1, timeout := 1,
                                     hasKeepAliveResponseFunc := false })))).run.sentCookies
      = [7, 7] ∧
    (KeepAlive.timerFire
      (KeepAlive.clientStart
        (KeepAlive.NewClient (some { cookie := 7, period := 1, timeout := 1,
                                     hasKeepAliveResponseFunc := false })))).run.sentCookies.getD 1 0
      = (KeepAlive.timerFire
          (KeepAlive.clientStart
            (KeepAlive.NewClient (some { cookie := 7, period := 1, timeout := 1,
                                         hasKeepAliveResponseFunc := false })))).run.sentCookies.getD 0 0 := by
  constructor <;> rfl

/-- Claim C10 (confirmed): `NewClient` with a nil config substitutes the
default configuration `NewConfig()`, and with a non-nil config uses it
unchanged, so the stored config is always a value (never nil). -/
theorem keepalive_newclient_nil_config (cfg : KeepAlive.Config) :
    (KeepAlive.NewClient none).config = KeepAlive.NewConfig ∧
    (KeepAlive.NewClient (some cfg)).config = cfg ∧
    KeepAlive.resolveConfig none = KeepAlive.NewConfig := by
  exact ⟨rfl, rfl, rfl⟩

/-- Claim C9 (confirmed): handling a KeepAliveResponse carrying cookie `k`
invokes the configured callback exactly once with `k` as received, for
every configured cookie seed (the most recently sent cookie is not
compared); with no callback configured, or a nil config, the handler
returns nil without invoking anything. -/
theorem keepalive_response_cookie_forwarded (cfg : KeepAlive.Config) (k seed : Nat) :
    (cfg.hasKeepAliveResponseFunc = true →
      KeepAlive.handleKeepAliveResponse (some { cfg with cookie := seed }) k
        = KeepAlive.ResponseOutcome.callbackInvoked k) ∧
    (cfg.hasKeepAliveResponseFunc = false →
      KeepAlive.handleKeepAliveResponse (some cfg) k
        = KeepAlive.ResponseOutcome.noAction) ∧
    KeepAlive.handleKeepAliveResponse none k = KeepAlive.ResponseOutcome.noAction := by
  refine ⟨fun h => ?_, fun h => ?_, rfl⟩ <;>
    simp [KeepAlive.handleKeepAliveResponse, h]

/-- Witness for C9: a callback-bearing config receives cookie 5 (seed 99),
and a config without callback yields no action. -/
theorem keepalive_response_cookie_forwarded_witness :
    KeepAlive.handleKeepAliveResponse
        (some { cookie := 99, period := 60, timeout := 10,
                hasKeepAliveResponseFunc := true }) 5
      = KeepAlive.ResponseOutcome.callbackInvoked 5 ∧
    KeepAlive.handleKeepAliveResponse
        (some { cookie := 0, period := 60, timeout := 10,
                hasKeepAliveResponseFunc := false }) 5
      = KeepAlive.ResponseOutcome.noAction :=
  ⟨(keepalive_response_cookie_forwarded
      { cookie := 0, period := 60, timeout := 10, hasKeepAliveResponseFunc := true }
      5 99).1 rfl,
   (keepalive_response_cookie_forwarded
      { cookie := 0, period := 60, timeout := 10, hasKeepAliveResponseFunc := false }
      5 99).2.1 rfl⟩

/-- Claim C7 (confirmed): constructing a keep-alive client takes an
independent copy of the shared `StateMap` template (the copy holds exactly
the entries of the template, which is itself a value the construction
never rebinds) and overwrites only the timeout of the `StateServer` entry
with the configured timeout: every other state maps to the same entry as
in the template, the `StateServer` entry keeps its agency and transitions,
and when the template has no `StateServer` entry the copy is unchanged. -/
theorem keepalive_statemap_frame (tmpl : KeepAlive.StateMapT) (t : Nat) :
    KeepAlive.stateMapCopy tmpl = tmpl ∧
    (∀ s, s ≠ KeepAlive.ProtState.stateServer →
      KeepAlive.newClientStateMap tmpl t s = tmpl s) ∧
    (∀ e, tmpl KeepAlive.ProtState.stateServer = some e →
      KeepAlive.newClientStateMap tmpl t KeepAlive.ProtState.stateServer
        = some { agency := e.agency, transitions := e.transitions, timeout := t }) ∧
    (tmpl KeepAlive.ProtState.stateServer = none →
      KeepAlive.newClientStateMap tmpl t = tmpl) ∧
    (∀ cfg?, (KeepAlive.NewClient cfg?).stateMap
      = KeepAlive.newClientStateMap KeepAlive.keepAliveStateMap
          (KeepAlive.resolveConfig cfg?).timeout) := by
  refine ⟨rfl, ?_, ?_, ?_, fun _ => rfl⟩
  · intro s hs
    unfold KeepAlive.newClientStateMap KeepAlive.stateMapCopy
    cases h : tmpl KeepAlive.ProtState.stateServer <;> simp [h, hs]
  · intro e he
    unfold KeepAlive.newClientStateMap KeepAlive.stateMapCopy
    simp [he]
  · intro h
    unfold KeepAlive.newClientStateMap KeepAlive.stateMapCopy
    simp [h]

/-- Witness for C7 on the concrete keep-alive template with timeout 42:
the `Client` state entry is untouched and the `Server` entry keeps agency
and transitions while taking timeout 42. -/
theorem keepalive_statemap_frame_witness :
    KeepAlive.newClientStateMap KeepAlive.keepAliveStateMap 42
        KeepAlive.ProtState.stateClient
      = KeepAlive.keepAliveStateMap KeepAlive.ProtState.stateClient ∧
    KeepAlive.newClientStateMap KeepAlive.keepAliveStateMap 42
        KeepAlive.ProtState.stateServer
      = some { agency := KeepAlive.Agency.serverAgency,
               transitions := [(1, KeepAlive.ProtState.stateClient)],
               timeout := 42 } :=
  ⟨(keepalive_statemap_frame KeepAlive.keepAliveStateMap 42).2.1
      KeepAlive.ProtState.stateClient (by decide),
   (keepalive_statemap_frame KeepAlive.keepAliveStateMap 42).2.2.1
      { agency := KeepAlive.Agency.serverAgency,
        transitions := [(1, KeepAlive.ProtState.stateClient)],
        timeout := 0 } rfl⟩

/-- Claim C1 (corrected, counterexample): a local-state-query server
negotiated at version 10 does not accept a message type outside the seven
handled ones any differently than one at version 9 — both produce the
identical unexpected-message-type error, and `HandlerResult`, the
exhaustive outcome type of the source handler, has no UnsupportedFeature
case at all, so no version-gated rejection exists. -/
theorem lsq_version_gate_counterexample :
    LocalStateQuery.messageHandler
        (LocalStateQuery.NewServer 9
          { hasAcquireFunc := true, hasQueryFunc := true, hasReleaseFunc := true,
            hasReAcquireFunc := true, hasDoneFunc := true })
        (LocalStateQuery.Msg.msgOther 10) false
      = LocalStateQuery.HandlerResult.unexpectedType 10 ∧
    LocalStateQuery.messageHandler
        (LocalStateQuery.NewServer 10
          { hasAcquireFunc := true, hasQueryFunc := true, hasReleaseFunc := true,
            hasReAcquireFunc := true, hasDoneFunc := true })
        (LocalStateQuery.Msg.msgOther 10) false
      = LocalStateQuery.HandlerResult.unexpectedType 10 := by
  exact ⟨rfl, rfl⟩

/-- Claim C1 (corrected, amended): `NewServer` records the version-gated
feature flags — the two flags enabled at version ≥ 10 and the third at
version ≥ 11 — but the message handler dispatches on the message type
alone: its result is identical for any two negotiated versions, and it
never returns an UnsupportedFeature error (no such outcome exists in the
handler). -/
theorem lsq_version_flags_handler_independent (v w : Nat)
    (cfg : LocalStateQuery.Config) (msg : LocalStateQuery.Msg) (b : Bool) :
    LocalStateQuery.messageHandler (LocalStateQuery.NewServer v cfg) msg b
      = LocalStateQuery.messageHandler (LocalStateQuery.NewServer w cfg) msg b ∧
    (LocalStateQuery.NewServer v cfg).enableGetChainBlockNo = decide (10 ≤ v) ∧
    (LocalStateQuery.NewServer v cfg).enableGetChainPoint = decide (10 ≤ v) ∧
    (LocalStateQuery.NewServer v cfg).enableGetRewardInfoPoolsBlock
      = decide (11 ≤ v) := by
  exact ⟨rfl, rfl, rfl, rfl⟩

/-- Claim C5 (confirmed): for each of the five handled message kinds, a
server whose corresponding callback is nil answers an arriving message of
that kind with the missing-handler error naming the kind, and no user
callback is invoked (the `missingHandler` outcome carries no
`CallbackCall`). -/
theorem lsq_missing_handler (v : Nat) (cfg : LocalStateQuery.Config)
    (p : LocalStateQuery.Point) (q : LocalStateQuery.QueryBody) (b : Bool) :
    (cfg.hasAcquireFunc = false →
      LocalStateQuery.messageHandler (LocalStateQuery.NewServer v cfg)
          (LocalStateQuery.Msg.msgAcquire p) b
        = LocalStateQuery.HandlerResult.missingHandler "Acquire" ∧
      LocalStateQuery.messageHandler (LocalStateQuery.NewServer v cfg)
          LocalStateQuery.Msg.msgAcquireNoPoint b
        = LocalStateQuery.HandlerResult.missingHandler "Acquire") ∧
    (cfg.hasQueryFunc = false →
      LocalStateQuery.messageHandler (LocalStateQuery.NewServer v cfg)
          (LocalStateQuery.Msg.msgQuery q) b
        = LocalStateQuery.HandlerResult.missingHandler "Query") ∧
    (cfg.hasReleaseFunc = false →
      LocalStateQuery.messageHandler (LocalStateQuery.NewServer v cfg)
          LocalStateQuery.Msg.msgRelease b
        = LocalStateQuery.HandlerResult.missingHandler "Release") ∧
    (cfg.hasReAcquireFunc = false →
      LocalStateQuery.messageHandler (LocalStateQuery.NewServer v cfg)
          (LocalStateQuery.Msg.msgReAcquire p) b
        = LocalStateQuery.HandlerResult.missingHandler "ReAcquire" ∧
      LocalStateQuery.messageHandler (LocalStateQuery.NewServer v cfg)
          LocalStateQuery.Msg.msgReAcquireNoPoint b
        = LocalStateQuery.HandlerResult.missingHandler "ReAcquire") ∧
    (cfg.hasDoneFunc = false →
      LocalStateQuery.messageHandler (LocalStateQuery.NewServer v cfg)
          LocalStateQuery.Msg.msgDone b
        = LocalStateQuery.HandlerResult.missingHandler "Done") := by
  refine ⟨fun h => ⟨?_, ?_⟩, fun h => ?_, fun h => ?_, fun h => ⟨?_, ?_⟩, fun h => ?_⟩ <;>
    simp [LocalStateQuery.messageHandler, LocalStateQuery.msgType,
      LocalStateQuery.MessageTypeAcquire, LocalStateQuery.MessageTypeQuery,
      LocalStateQuery.MessageTypeRelease, LocalStateQuery.MessageTypeReacquire,
      LocalStateQuery.MessageTypeDone, LocalStateQuery.MessageTypeAcquireNoPoint,
      LocalStateQuery.MessageTypeReacquireNoPoint,
      LocalStateQuery.handleAcquire, LocalStateQuery.handleQuery,
      LocalStateQuery.handleRelease, LocalStateQuery.handleReAcquire,
      LocalStateQuery.handleDone, LocalStateQuery.NewServer, h]

/-- Witness for C5: the all-nil config at version 9 yields the five
missing-handler errors for all seven message shapes. -/
theorem lsq_missing_handler_witness :
    LocalStateQuery.messageHandler
        (LocalStateQuery.NewServer 9
          { hasAcquireFunc := false, hasQueryFunc := false, hasReleaseFunc := false,
            hasReAcquireFunc := false, hasDoneFunc := false })
        (LocalStateQuery.Msg.msgAcquire 0) false
      = LocalStateQuery.HandlerResult.missingHandler "Acquire" ∧
    LocalStateQuery.messageHandler
        (LocalStateQuery.NewServer 9
          { hasAcquireFunc := false, hasQueryFunc := false, hasReleaseFunc := false,
            hasReAcquireFunc := false, hasDoneFunc := false })
        (LocalStateQuery.Msg.msgQuery 0) false
      = LocalStateQuery.HandlerResult.missingHandler "Query" ∧
    LocalStateQuery.messageHandler
        (LocalStateQuery.NewServer 9
          { hasAcquireFunc := false, hasQueryFunc := false, hasReleaseFunc := false,
            hasReAcquireFunc := false, hasDoneFunc := false })
        LocalStateQuery.Msg.msgRelease false
      = LocalStateQuery.HandlerResult.missingHandler "Release" ∧
    LocalStateQuery.messageHandler
        (LocalStateQuery.NewServer 9
          { hasAcquireFunc := false, hasQueryFunc := false, hasReleaseFunc := false,
            hasReAcquireFunc := false, hasDoneFunc := false })
        LocalStateQuery.Msg.msgReAcquireNoPoint false
      = LocalStateQuery.HandlerResult.missingHandler "ReAcquire" ∧
    LocalStateQuery.messageHandler
        (LocalStateQuery.NewServer 9
          { hasAcquireFunc := false, hasQueryFunc := false, hasReleaseFunc := false,
            hasReAcquireFunc := false, hasDoneFunc := false })
        LocalStateQuery.Msg.msgDone false
      = LocalStateQuery.HandlerResult.missingHandler "Done" :=
  ⟨((lsq_missing_handler 9
      { hasAcquireFunc := false, hasQueryFunc := false, hasReleaseFunc := false,
        hasReAcquireFunc := false, hasDoneFunc := false } 0 0 false).1 rfl).1,
   (lsq_missing_handler 9
      { hasAcquireFunc := false, hasQueryFunc := false, hasReleaseFunc := false,
        hasReAcquireFunc := false, hasDoneFunc := false } 0 0 false).2.1 rfl,
   (lsq_missing_handler 9
      { hasAcquireFunc := false, hasQueryFunc := false, hasReleaseFunc := false,
        hasReAcquireFunc := false, hasDoneFunc := false } 0 0 false).2.2.1 rfl,
   ((lsq_missing_handler 9
      { hasAcquireFunc := false, hasQueryFunc := false, hasReleaseFunc := false,
        hasReAcquireFunc := false, hasDoneFunc := false } 0 0 false).2.2.2.1 rfl).2,
   (lsq_missing_handler 9
      { hasAcquireFunc := false, hasQueryFunc := false, hasReleaseFunc := false,
        hasReAcquireFunc := false, hasDoneFunc := false } 0 0 false).2.2.2.2 rfl⟩

/-- Claim C6 (confirmed): with `AcquireFunc` set, an Acquire message
carrying point `p` invokes `AcquireFunc` with `p` present and an
AcquireNoPoint message invokes it with the absent-point sentinel; the same
holds for ReAcquire/ReAcquireNoPoint and `ReAcquireFunc`. -/
theorem lsq_acquire_variants (v : Nat) (cfg : LocalStateQuery.Config)
    (p : LocalStateQuery.Point) (b : Bool) :
    (cfg.hasAcquireFunc = true →
      LocalStateQuery.messageHandler (LocalStateQuery.NewServer v cfg)
          (LocalStateQuery.Msg.msgAcquire p) b
        = LocalStateQuery.HandlerResult.ok
            (some (LocalStateQuery.CallbackCall.acquireCall (some p))) ∧
      LocalStateQuery.messageHandler (LocalStateQuery.NewServer v cfg)
          LocalStateQuery.Msg.msgAcquireNoPoint b
        = LocalStateQuery.HandlerResult.ok
            (some (LocalStateQuery.CallbackCall.acquireCall none))) ∧
    (cfg.hasReAcquireFunc = true →
      LocalStateQuery.messageHandler (LocalStateQuery.NewServer v cfg)
          (LocalStateQuery.Msg.msgReAcquire p) b
        = LocalStateQuery.HandlerResult.ok
            (some (LocalStateQuery.CallbackCall.reAcquireCall (some p))) ∧
      LocalStateQuery.messageHandler (LocalStateQuery.NewServer v cfg)
          LocalStateQuery.Msg.msgReAcquireNoPoint b
        = LocalStateQuery.HandlerResult.ok
            (some (LocalStateQuery.CallbackCall.reAcquireCall none))) := by
  refine ⟨fun h => ⟨?_, ?_⟩, fun h => ⟨?_, ?_⟩⟩ <;>
    simp [LocalStateQuery.messageHandler, LocalStateQuery.msgType,
      LocalStateQuery.MessageTypeAcquire, LocalStateQuery.MessageTypeQuery,
      LocalStateQuery.MessageTypeRelease, LocalStateQuery.MessageTypeReacquire,
      LocalStateQuery.MessageTypeDone, LocalStateQuery.MessageTypeAcquireNoPoint,
      LocalStateQuery.MessageTypeReacquireNoPoint,
      LocalStateQuery.handleAcquire, LocalStateQuery.handleReAcquire,
      LocalStateQuery.NewServer, h]

/-- Witness for C6: the all-set config at version 9, Acquire with point 5
and the two NoPoint variants. -/
theorem lsq_acquire_variants_witness :
    LocalStateQuery.messageHandler
        (LocalStateQuery.NewServer 9
          { hasAcquireFunc := true, hasQueryFunc := true, hasReleaseFunc := true,
            hasReAcquireFunc := true, hasDoneFunc := true })
        (LocalStateQuery.Msg.msgAcquire 5) false
      = LocalStateQuery.HandlerResult.ok
          (some (LocalStateQuery.CallbackCall.acquireCall (some 5))) ∧
    LocalStateQuery.messageHandler
        (LocalStateQuery.NewServer 9
          { hasAcquireFunc := true, hasQueryFunc := true, hasReleaseFunc := true,
            hasReAcquireFunc := true, hasDoneFunc := true })
        LocalStateQuery.Msg.msgAcquireNoPoint false
      = LocalStateQuery.HandlerResult.ok
          (some (LocalStateQuery.CallbackCall.acquireCall none)) ∧
    LocalStateQuery.messageHandler
        (LocalStateQuery.NewServer 9
          { hasAcquireFunc := true, hasQueryFunc := true, hasReleaseFunc := true,
            hasReAcquireFunc := true, hasDoneFunc := true })
        (LocalStateQuery.Msg.msgReAcquire 5) false
      = LocalStateQuery.HandlerResult.ok
          (some (LocalStateQuery.CallbackCall.reAcquireCall (some 5))) :=
  ⟨((lsq_acquire_variants 9
      { hasAcquireFunc := true, hasQueryFunc := true, hasReleaseFunc := true,
        hasReAcquireFunc := true, hasDoneFunc := true } 5 false).1 rfl).1,
   ((lsq_acquire_variants 9
      { hasAcquireFunc := true, hasQueryFunc := true, hasReleaseFunc := true,
        hasReAcquireFunc := true, hasDoneFunc := true } 5 false).1 rfl).2,
   ((lsq_acquire_variants 9
      { hasAcquireFunc := true, hasQueryFunc := true, hasReleaseFunc := true,
        hasReAcquireFunc := true, hasDoneFunc := true } 5 false).2 rfl).1⟩

/-- Claim C2 (confirmed): each tagged-variant decoder errors, naming the
unknown discriminant, for every discriminant outside its closed set —
certificate types outside 0..6, block types outside the eight known eras,
relay types outside 0..2 — and never yields a default value. -/
theorem unknown_discriminant_decode_errors
    (cd : Ledger.CertData) (t : Int) (bd : Ledger.BlockData) (bt : Nat)
    (rd : Ledger.RelayData) (rt : Int) :
    (cd.listId = Except.ok t → ¬(0 ≤ t ∧ t ≤ 6) →
      Ledger.certificateWrapperUnmarshalCBOR cd
        = Ledger.CertResult.unknownCertType t) ∧
    (bt ≠ Ledger.BlockTypeByronEbb → bt ≠ Ledger.BlockTypeByronMain →
      bt ≠ Ledger.BlockTypeShelley → bt ≠ Ledger.BlockTypeAllegra →
      bt ≠ Ledger.BlockTypeMary → bt ≠ Ledger.BlockTypeAlonzo →
      bt ≠ Ledger.BlockTypeBabbage → bt ≠ Ledger.BlockTypeConway →
      Ledger.NewBlockFromCbor bt bd = Ledger.BlockResult.unknownBlockType bt) ∧
    (rd.listId = Except.ok rt → ¬(0 ≤ rt ∧ rt ≤ 2) →
      Ledger.poolRelayUnmarshalCBOR rd
        = Ledger.RelayResult.invalidRelayType rt) := by
  refine ⟨?_, ?_, ?_⟩
  · intro hid hout
    have hne : ¬(t = Ledger.CertificateTypeStakeRegistration ∨
        t = Ledger.CertificateTypeStakeDeregistration ∨
        t = Ledger.CertificateTypeStakeDelegation ∨
        t = Ledger.CertificateTypePoolRegistration ∨
        t = Ledger.CertificateTypePoolRetirement ∨
        t = Ledger.CertificateTypeGenesisKeyDelegation ∨
        t = Ledger.CertificateTypeMoveInstantaneousRewards) := by
      simp only [Ledger.CertificateTypeStakeRegistration,
        Ledger.CertificateTypeStakeDeregistration,
        Ledger.CertificateTypeStakeDelegation,
        Ledger.CertificateTypePoolRegistration,
        Ledger.CertificateTypePoolRetirement,
        Ledger.CertificateTypeGenesisKeyDelegation,
        Ledger.CertificateTypeMoveInstantaneousRewards]
      omega
    simp only [Ledger.certificateWrapperUnmarshalCBOR, hid]
    rw [if_neg hne]
  · intro h0 h1 h2 h3 h4 h5 h6 h7
    simp only [Ledger.NewBlockFromCbor]
    rw [if_neg h0, if_neg h1, if_neg h2, if_neg h3, if_neg h4, if_neg h5,
      if_neg h6, if_neg h7]
  · intro hid hout
    have hne : ¬(rt = Ledger.PoolRelayTypeSingleHostAddress ∨
        rt = Ledger.PoolRelayTypeSingleHostName ∨
        rt = Ledger.PoolRelayTypeMultiHostName) := by
      simp only [Ledger.PoolRelayTypeSingleHostAddress,
        Ledger.PoolRelayTypeSingleHostName, Ledger.PoolRelayTypeMultiHostName]
      omega
    simp only [Ledger.poolRelayUnmarshalCBOR, hid]
    rw [if_neg hne]

/-- Witness for C2 at discriminants 7 (certificate), 8 (block) and 3
(relay), each with payload decoding that would succeed for any known
type, showing the discriminant check alone triggers the error. -/
theorem unknown_discriminant_decode_errors_witness :
    Ledger.certificateWrapperUnmarshalCBOR
        { listId := Except.ok 7, payloadOk := fun _ => true }
      = Ledger.CertResult.unknownCertType 7 ∧
    Ledger.NewBlockFromCbor 8 { eraOk := fun _ => true }
      = Ledger.BlockResult.unknownBlockType 8 ∧
    Ledger.poolRelayUnmarshalCBOR
        { listId := Except.ok 3, payloadOk := fun _ => true }
      = Ledger.RelayResult.invalidRelayType 3 :=
  ⟨(unknown_discriminant_decode_errors
      { listId := Except.ok 7, payloadOk := fun _ => true } 7
      { eraOk := fun _ => true } 8
      { listId := Except.ok 3, payloadOk := fun _ => true } 3).1
      rfl (by omega),
   (unknown_discriminant_decode_errors
      { listId := Except.ok 7, payloadOk := fun _ => true } 7
      { eraOk := fun _ => true } 8
      { listId := Except.ok 3, payloadOk := fun _ => true } 3).2.1
      (by decide) (by decide) (by decide) (by decide) (by decide) (by decide)
      (by decide) (by decide),
   (unknown_discriminant_decode_errors
      { listId := Except.ok 7, payloadOk := fun _ => true } 7
      { eraOk := fun _ => true } 8
      { listId := Except.ok 3, payloadOk := fun _ => true } 3).2.2
      rfl (by omega)⟩

/-- Claim C8 (confirmed): the MIR reward decoder first attempts the
map-shaped form `[source, rewards-map]` and on success sets `Source` and
`Rewards` from the decoded value; on any decode error of that first
attempt it falls back to the coin shape `[source, coin]`, and on success
of the fallback sets `OtherPot` to the decoded coin and `Source` to the
decoded source — the leading field both shapes share, which the failed
first attempt had already decoded in place, so the fallback can only
succeed with that same decoded source; if both attempts fail it returns
an error. -/
theorem mir_fallback_decode (r : Ledger.MirReward) (d : Ledger.MirData)
    (src coin : Nat) (rew : Ledger.RewardsMap) :
    (d.sourceField = Except.ok src → d.rewardsField = Except.ok rew →
      Ledger.mirRewardUnmarshalCBOR r d
        = Except.ok { r with rewards := rew, source := src }) ∧
    (d.sourceField = Except.ok src → d.rewardsField = Except.error () →
      d.coinField = Except.ok coin →
      Ledger.mirRewardUnmarshalCBOR r d
        = Except.ok { r with otherPot := coin, source := src }) ∧
    (d.sourceField = Except.error () →
      Ledger.mirRewardUnmarshalCBOR r d = Except.error ()) ∧
    (d.sourceField = Except.ok src → d.rewardsField = Except.error () →
      d.coinField = Except.error () →
      Ledger.mirRewardUnmarshalCBOR r d = Except.error ()) := by
  refine ⟨fun hs hr => ?_, fun hs hr hc => ?_, fun hs => ?_, fun hs hr hc => ?_⟩
  · simp [Ledger.mirRewardUnmarshalCBOR, hs, hr]
  · simp [Ledger.mirRewardUnmarshalCBOR, hs, hr, hc]
  · simp [Ledger.mirRewardUnmarshalCBOR, hs]
  · simp [Ledger.mirRewardUnmarshalCBOR, hs, hr, hc]

/-- Witness for C8: the map shape succeeding with source 2, the fallback
succeeding on a coin-shaped input with source 1 and coin 42 (yielding
`Source = 1`, the decoded source), and the two both-fail error cases. -/
theorem mir_fallback_decode_witness :
    Ledger.mirRewardUnmarshalCBOR Ledger.zeroMirReward
        { sourceField := Except.ok 2, rewardsField := Except.ok [(9, 100)],
          coinField := Except.error () }
      = Except.ok { source := 2, rewards := [(9, 100)], otherPot := 0 } ∧
    Ledger.mirRewardUnmarshalCBOR Ledger.zeroMirReward
        { sourceField := Except.ok 1, rewardsField := Except.error (),
          coinField := Except.ok 42 }
      = Except.ok { source := 1, rewards := [], otherPot := 42 } ∧
    Ledger.mirRewardUnmarshalCBOR Ledger.zeroMirReward
        { sourceField := Except.error (), rewardsField := Except.error (),
          coinField := Except.error () }
      = Except.error () ∧
    Ledger.mirRewardUnmarshalCBOR Ledger.zeroMirReward
        { sourceField := Except.ok 1, rewardsField := Except.error (),
          coinField := Except.error () }
      = Except.error () :=
  ⟨(mir_fallback_decode Ledger.zeroMirReward
      { sourceField := Except.ok 2, rewardsField := Except.ok [(9, 100)],
        coinField := Except.error () } 2 0 [(9, 100)]).1 rfl rfl,
   (mir_fallback_decode Ledger.zeroMirReward
      { sourceField := Except.ok 1, rewardsField := Except.error (),
        coinField := Except.ok 42 } 1 42 []).2.1 rfl rfl rfl,
   (mir_fallback_decode Ledger.zeroMirReward
      { sourceField := Except.error (), rewardsField := Except.error (),
        coinField := Except.error () } 0 0 []).2.2.1 rfl,
   (mir_fallback_decode Ledger.zeroMirReward
      { sourceField := Except.ok 1, rewardsField := Except.error (),
        coinField := Except.error () } 1 0 []).2.2.2 rfl rfl rfl⟩
